import Mathlib

/-
Verification of the mini RAG chatbot pipeline (src/ingest.py, src/retrieval.py,
src/rag_core.py / src/chatbot_groq.py).

Shallow embedding conventions:
  - Python dicts with string keys are association lists; `dict.get` is lookup
    on the first matching key.
  - The external FAISS index together with the embedding model is abstracted
    as a scoring function `query -> stored document -> score` (the distance of
    the stored chunk to the embedded query); `similarity_search_with_score`
    is modelled from the spec as the score-ascending k-nearest-neighbor list.
  - The Groq client is an abstract function from a generation request to
    either a completion or an error message (a raised exception).
  - The filesystem is a pair of partial maps: data directories (with the PDF
    pages a DirectoryLoader would load from them) and vector store
    directories; `none` means the directory does not exist.
-/

namespace RAG

/-- A LangChain document (a loaded PDF page, or a chunk of one): its text
content plus a string-keyed metadata map. -/
structure Doc where
  page_content : String
  metadata : List (String × String)
  deriving DecidableEq, Repr

/-- Python `d.get(key, dflt)` over the association-list model of a dict. -/
def dictGetD (m : List (String × String)) (key dflt : String) : String :=
  match m.find? (fun p => p.1 == key) with
  | some p => p.2
  | none => dflt

/-- Python `d.get(key)` over the association-list model of a dict: `none` when
the key is absent. -/
def assocGet? {α : Type} (m : List (String × α)) (key : String) : Option α :=
  (m.find? (fun p => p.1 == key)).map (fun p => p.2)

/-- A Python value appearing in the metadata dicts of this program: an int or
a string. -/
inductive PyVal where
  | nat (n : Nat)
  | str (s : String)
  deriving DecidableEq, Repr

/-- An in-memory FAISS vector store: the stored chunks together with the
scoring function induced by the index and the embedding model (the distance
of each stored chunk to the embedded query). -/
structure Vectorstore where
  docs : List Doc
  score : String → Doc → Int

/-- Python `vectorstore.index.ntotal`: the number of stored vectors, one per
stored chunk. -/
def Vectorstore.ntotal (vs : Vectorstore) : Nat := vs.docs.length

/-- The ranking order of the index: lower distance score first. -/
def scoreLE (a b : Doc × Int) : Prop := a.2 ≤ b.2

instance : DecidableRel scoreLE := fun a b => inferInstanceAs (Decidable (a.2 ≤ b.2))

instance : IsTotal (Doc × Int) scoreLE := ⟨fun a b => Int.le_total a.2 b.2⟩

instance : IsTrans (Doc × Int) scoreLE := ⟨fun _ _ _ hab hbc => le_trans hab hbc⟩

/-- Modelled from the spec: the external FAISS engine's
`similarity_search_with_score(query, k) -> ranked list` (spec section 6), whose
results are "ordered by similarity (best first)" / "ascending distance": the
stored chunks paired with their scores for this query, sorted by ascending
score, truncated to the first `k`. -/
def Vectorstore.similarity_search_with_score (vs : Vectorstore) (query : String) (k : Nat) :
    List (Doc × Int) :=
  (List.insertionSort scoreLE (vs.docs.map (fun d => (d, vs.score query d)))).take k

/-- One formatted retrieval result, as built in `Retriever.search`
(src/retrieval.py): the dict with keys content, metadata, score, source. -/
structure SearchResult where
  content : String
  metadata : List (String × String)
  score : Int
  source : String
  deriving DecidableEq, Repr

/-- The contents of a vector store directory on disk: the persisted index and
the optional `metadata.pkl` sidecar record (string keys, int values). -/
structure StoreDir where
  store : Vectorstore
  metadataPkl : Option (List (String × Nat))

/-- The filesystem model: partial maps from directory path to contents.
`dataDirs dir = some pages` means the data directory exists and loading the
PDFs under it yields `pages`; `none` means the directory does not exist.
Likewise `storeDirs` for vector store directories. -/
structure FS where
  dataDirs : String → Option (List Doc)
  storeDirs : String → Option StoreDir

/-- A loaded `Retriever` (src/retrieval.py): the loaded vector store, the
loaded sidecar metadata (`{}` when `metadata.pkl` is absent), and the
configured `top_k`. -/
structure Retriever where
  vectorstore : Vectorstore
  metadata : List (String × Nat)
  top_k : Nat

/-- `Retriever.__init__` together with `_load_vectorstore` and
`_load_metadata` (src/retrieval.py): raises `FileNotFoundError` when the
vector store directory does not exist, otherwise loads the store and the
sidecar record. -/
def Retriever.init (fs : FS) (vectorstore_dir : String) (top_k : Nat) :
    Except String Retriever :=
  match fs.storeDirs vectorstore_dir with
  | none =>
      .error ("Vector store not found at " ++ vectorstore_dir ++
        ". Please run ingest.py first.")
  | some d =>
      .ok { vectorstore := d.store, metadata := d.metadataPkl.getD [], top_k := top_k }

/-- `Retriever.search` (src/retrieval.py): when `k` is `None` use the
configured `top_k`; run the similarity search; format each `(doc, score)`
pair as a result dict, with the source field `metadata.get('source', 'Unknown')`. -/
def Retriever.search (r : Retriever) (query : String) (k : Option Nat) :
    List SearchResult :=
  let kk := k.getD r.top_k
  (r.vectorstore.similarity_search_with_score query kk).map
    (fun p =>
      { content := p.1.page_content
        metadata := p.1.metadata
        score := p.2
        source := dictGetD p.1.metadata "source" "Unknown" })

/-- Python `self.metadata.get(key, 'Unknown')` as it appears in `get_stats`:
an int when the key is present, the string `'Unknown'` otherwise. -/
def statGetD (m : List (String × Nat)) (key : String) : PyVal :=
  match assocGet? m key with
  | some n => .nat n
  | none => .str "Unknown"

/-- `Retriever.get_stats` (src/retrieval.py): counters about the loaded
store. -/
def Retriever.get_stats (r : Retriever) : List (String × PyVal) :=
  [("total_chunks", .nat r.vectorstore.ntotal),
   ("chunk_size", statGetD r.metadata "chunk_size"),
   ("chunk_overlap", statGetD r.metadata "chunk_overlap"),
   ("embedding_model", .str "sentence-transformers/all-MiniLM-L6-v2")]

/-- Modelled from the spec: the LangChain `RecursiveCharacterTextSplitter` is
an external library not part of this repository; the spec (sections 3 and 4.1)
describes its output as overlapping text windows where every chunk has length
at most `chunk_size` and consecutive chunks of a document "share an
overlapping suffix/prefix of length = configured overlap". This is the
sliding window of width `chunk_size` advancing by `chunk_size - chunk_overlap`
characters per step. -/
def chunkText (chunk_size chunk_overlap : Nat) (t : List Char) :
    List (List Char) :=
  if h : chunk_size ≤ chunk_overlap ∨ t.length ≤ chunk_size then [t]
  else
    t.take chunk_size ::
      chunkText chunk_size chunk_overlap (t.drop (chunk_size - chunk_overlap))
termination_by t.length
decreasing_by
  push_neg at h
  simp only [List.length_drop]
  omega

/-- Outcome of a run of the ingestion pipeline: the "no documents" warning
path, a completed run, or a raised error. -/
inductive IngestOutcome where
  | noDocuments
  | completed (numChunks : Nat)
  | failed (msg : String)
  deriving DecidableEq, Repr

/-- A `DocumentIngestor` (src/ingest.py): the configured directories and
chunking parameters, plus the scoring function its embedding model induces on
the store it builds. -/
structure DocumentIngestor where
  data_dir : String
  vectorstore_dir : String
  chunk_size : Nat
  chunk_overlap : Nat
  embedScore : String → Doc → Int

/-- `DocumentIngestor.load_documents` (src/ingest.py): raises
`FileNotFoundError` when the data directory does not exist, otherwise loads
every PDF page under it. -/
def DocumentIngestor.load_documents (ing : DocumentIngestor) (fs : FS) :
    Except String (List Doc) :=
  match fs.dataDirs ing.data_dir with
  | none => .error ("Data directory not found: " ++ ing.data_dir)
  | some documents => .ok documents

/-- `DocumentIngestor.chunk_documents` (src/ingest.py): split every document
with the configured text splitter, each chunk keeping its document's
metadata. -/
def DocumentIngestor.chunk_documents (ing : DocumentIngestor) (documents : List Doc) :
    List Doc :=
  documents.flatMap (fun d =>
    (chunkText ing.chunk_size ing.chunk_overlap d.page_content.toList).map
      (fun c => { page_content := String.mk c, metadata := d.metadata }))

/-- `DocumentIngestor.create_vectorstore` (src/ingest.py):
`FAISS.from_documents` over the chunks with the configured embeddings. -/
def DocumentIngestor.create_vectorstore (ing : DocumentIngestor) (chunks : List Doc) :
    Vectorstore :=
  { docs := chunks, score := ing.embedScore }

/-- `DocumentIngestor.save_vectorstore` (src/ingest.py): write the store to
the vector store directory together with the `metadata.pkl` sidecar record
with keys `num_chunks`, `chunk_size`, `chunk_overlap`. -/
def DocumentIngestor.save_vectorstore (ing : DocumentIngestor) (vs : Vectorstore)
    (fs : FS) : FS :=
  { fs with
      storeDirs := fun d =>
        if d = ing.vectorstore_dir then
          some { store := vs
                 metadataPkl := some [("num_chunks", vs.ntotal),
                                      ("chunk_size", ing.chunk_size),
                                      ("chunk_overlap", ing.chunk_overlap)] }
        else fs.storeDirs d }

/-- `DocumentIngestor.ingest` (src/ingest.py): load, then return with the
"no documents" warning when zero pages were loaded, otherwise chunk, build
and save the store. A load failure propagates. -/
def DocumentIngestor.ingest (ing : DocumentIngestor) (fs : FS) :
    FS × IngestOutcome :=
  match ing.load_documents fs with
  | .error msg => (fs, .failed msg)
  | .ok documents =>
      if documents.length = 0 then (fs, .noDocuments)
      else
        let chunks := ing.chunk_documents documents
        let vs := ing.create_vectorstore chunks
        (ing.save_vectorstore vs fs, .completed vs.ntotal)

/-- A generation request as assembled in `RAGChatbot.answer`
(src/rag_core.py): model name, chat messages as (role, content) pairs,
sampling temperature and the output length cap. -/
structure GenRequest where
  model : String
  messages : List (String × String)
  temperature : Rat
  max_tokens : Nat

/-- The dict returned by `RAGChatbot.answer` (src/rag_core.py,
src/chatbot_groq.py): keys answer, sources, metadata. -/
structure AnswerObj where
  answer : String
  sources : List SearchResult
  metadata : List (String × PyVal)
  deriving DecidableEq, Repr

/-- A `RAGChatbot` (src/rag_core.py / src/chatbot_groq.py): the Groq client
(abstracted as a function returning either the completion text or the message
of a raised exception), the retriever, and the configuration. -/
structure RAGChatbot where
  client : GenRequest → Except String String
  retriever : Retriever
  model : String
  temperature : Rat
  top_k : Nat

/-- `RAGChatbot._create_prompt` (src/rag_core.py): the grounding prompt
around the context and the question. -/
def RAGChatbot.create_prompt (bot : RAGChatbot) (query context : String) : String :=
  "You are a helpful research assistant. Answer the question based on the provided context from research papers.\n\nContext from research papers:\n"
    ++ context
    ++ "\n\nQuestion: " ++ query
    ++ "\n\nInstructions:\n- Answer based ONLY on the information in the context above\n- If the context doesn\x27t contain enough information to answer, say so\n- Be concise but comprehensive\n- Cite specific details from the context when relevant\n\nAnswer:"

/-- The request `RAGChatbot.answer` sends to the Groq API (src/rag_core.py,
step 2 and step 3): context built from the retrieved results labelled
`[Source N]`, wrapped in the grounding prompt, sent as a single user message
with the configured model, temperature and `max_tokens=512`. -/
def RAGChatbot.request_for (bot : RAGChatbot) (query : String) : GenRequest :=
  let results := bot.retriever.search query (some bot.top_k)
  let context := String.intercalate "\n\n"
    (results.enum.map (fun p => "[Source " ++ toString (p.1 + 1) ++ "]: " ++ p.2.content))
  { model := bot.model
    messages := [("user", bot.create_prompt query context)]
    temperature := bot.temperature
    max_tokens := 512 }

/-- `RAGChatbot.answer` (src/rag_core.py / src/chatbot_groq.py): retrieve
with `k = self.top_k`; with zero results short-circuit to the fixed fallback
dict; otherwise call the generation API, converting a raised exception into
an `"Error generating answer: ..."` string, and build the response dict. -/
def RAGChatbot.answer (bot : RAGChatbot) (query : String)
    (return_sources : Bool := true) : AnswerObj :=
  let results := bot.retriever.search query (some bot.top_k)
  if results.isEmpty then
    { answer := "I couldn\x27t find any relevant information in the documents."
      sources := []
      metadata := [("retrieved_chunks", .nat 0)] }
  else
    let ans :=
      match bot.client (bot.request_for query) with
      | .ok response => response.trim
      | .error e => "Error generating answer: " ++ e
    { answer := ans
      sources := if return_sources then results else []
      metadata := [("retrieved_chunks", .nat results.length),
                   ("model", .str bot.model),
                   ("query", .str query)] }

/- Concrete fixtures used by witnesses. -/

/-- A stored chunk whose metadata carries a source. -/
def docA : Doc := { page_content := "hello world", metadata := [("source", "a.pdf")] }

/-- A stored chunk with an empty metadata map. -/
def docNoSrc : Doc := { page_content := "hi", metadata := [] }

/-- A vector store holding no chunks. -/
def vsEmpty : Vectorstore := { docs := [], score := fun _ _ => 0 }

/-- A vector store holding one chunk. -/
def vsOne : Vectorstore := { docs := [docA], score := fun _ _ => 0 }

/-- A vector store holding one chunk without a source key. -/
def vsNoSrc : Vectorstore := { docs := [docNoSrc], score := fun _ _ => 0 }

/-- A retriever over the empty store. -/
def rEmpty : Retriever := { vectorstore := vsEmpty, metadata := [], top_k := 4 }

/-- A retriever over the one-chunk store. -/
def rOne : Retriever := { vectorstore := vsOne, metadata := [], top_k := 4 }

/-- A retriever over the store whose chunk has no source key. -/
def rNoSrc : Retriever := { vectorstore := vsNoSrc, metadata := [], top_k := 1 }

/-- A chatbot over the empty store. -/
def botEmpty : RAGChatbot :=
  { client := fun _ => .ok "fine", retriever := rEmpty,
    model := "llama-3.2-3b-preview", temperature := 0, top_k := 4 }

/-- A chatbot over the one-chunk store whose generation client always raises. -/
def botErr : RAGChatbot :=
  { client := fun _ => .error "boom", retriever := rOne,
    model := "llama-3.2-3b-preview", temperature := 0, top_k := 4 }

/-- A filesystem with no directories at all. -/
def fsNone : FS := { dataDirs := fun _ => none, storeDirs := fun _ => none }

/-- A filesystem whose data directories exist but hold no PDFs. -/
def fsEmptyData : FS := { dataDirs := fun _ => some [], storeDirs := fun _ => none }

/-- An ingestor with chunk size 5 and overlap 2. -/
def ingA : DocumentIngestor :=
  { data_dir := "data", vectorstore_dir := "vectorstore",
    chunk_size := 5, chunk_overlap := 2, embedScore := fun _ _ => 0 }

/- Helper lemmas. -/

/-- Every chunk the splitter model produces has length at most the chunk
size (fuel-indexed form for induction on the text length). -/
lemma chunkText_length_le (cs ov : Nat) (hov : ov < cs) :
    ∀ n (t : List Char), t.length ≤ n → ∀ c ∈ chunkText cs ov t, c.length ≤ cs := by
  intro n
  induction n with
  | zero =>
    intro t ht c hc
    rw [chunkText, dif_pos (Or.inr (by omega : t.length ≤ cs))] at hc
    simp only [List.mem_singleton] at hc
    subst hc
    omega
  | succ n ih =>
    intro t ht c hc
    rw [chunkText] at hc
    split at hc
    · next h =>
      simp only [List.mem_singleton] at hc
      subst hc
      rcases h with h | h
      · omega
      · exact h
    · next h =>
      push_neg at h
      rcases List.mem_cons.mp hc with rfl | hc2
      · rw [List.length_take]
        exact min_le_left _ _
      · exact ih (t.drop (cs - ov)) (by rw [List.length_drop]; omega) c hc2

/-- The splitter model always returns a nonempty list whose head starts with
the first `ov` characters of the input. -/
lemma chunkText_cons (cs ov : Nat) (t : List Char) :
    ∃ c l, chunkText cs ov t = c :: l ∧ c.take ov = t.take ov ∧
      (ov ≤ cs → ov ≤ t.length → ov ≤ c.length) := by
  rw [chunkText]
  split
  · exact ⟨t, [], rfl, rfl, fun _ h => h⟩
  · refine ⟨t.take cs, _, rfl, ?_, ?_⟩
    · rw [List.take_take]
      congr 1
      omega
    · intro h1 h2
      rw [List.length_take]
      exact le_min h1 h2

/-- Consecutive chunks of the splitter model share a suffix/prefix of length
exactly the configured overlap (fuel-indexed form). -/
lemma chunkText_chain (cs ov : Nat) (hov : ov < cs) :
    ∀ n (t : List Char), t.length ≤ n →
      List.Chain' (fun a b => a.drop (a.length - ov) = b.take ov ∧ ov ≤ b.length)
        (chunkText cs ov t) := by
  intro n
  induction n with
  | zero =>
    intro t ht
    rw [chunkText, dif_pos (Or.inr (by omega : t.length ≤ cs))]
    exact List.chain'_singleton t
  | succ n ih =>
    intro t ht
    rw [chunkText]
    split
    · exact List.chain'_singleton t
    · next h =>
      push_neg at h
      obtain ⟨h1, h2⟩ := h
      obtain ⟨c2, l2, hcl, hc2take, hc2len⟩ := chunkText_cons cs ov (t.drop (cs - ov))
      rw [hcl, List.chain'_cons]
      refine ⟨⟨?_, ?_⟩, ?_⟩
      · have hlen : (t.take cs).length = cs := by
          rw [List.length_take]
          exact min_eq_left (le_of_lt h2)
        rw [hlen, List.drop_take, hc2take]
        congr 1
        omega
      · apply hc2len (le_of_lt hov)
        rw [List.length_drop]
        omega
      · rw [← hcl]
        apply ih
        rw [List.length_drop]
        omega

/-- The fallback answer object built when retrieval returns nothing. -/
lemma answer_of_search_nil (bot : RAGChatbot) (query : String) (rs : Bool)
    (h : bot.retriever.search query (some bot.top_k) = []) :
    bot.answer query rs =
      { answer := "I couldn\x27t find any relevant information in the documents."
        sources := []
        metadata := [("retrieved_chunks", PyVal.nat 0)] } := by
  simp [RAGChatbot.answer, h]

/- Claim theorems. -/

/-- C1: on every query for which the retriever returns zero results,
`answer` returns the fixed fallback answer with an empty sources list, and
the generation API is not consulted: the result is the same for every
possible generation client. -/
theorem answer_short_circuits_on_zero_results (bot : RAGChatbot) (query : String)
    (rs : Bool) (h : bot.retriever.search query (some bot.top_k) = []) :
    bot.answer query rs =
      { answer := "I couldn\x27t find any relevant information in the documents."
        sources := []
        metadata := [("retrieved_chunks", PyVal.nat 0)] } ∧
    ∀ c : GenRequest → Except String String,
      ({ bot with client := c } : RAGChatbot).answer query rs = bot.answer query rs := by
  refine ⟨answer_of_search_nil bot query rs h, fun c => ?_⟩
  exact (answer_of_search_nil { bot with client := c } query rs h).trans
    (answer_of_search_nil bot query rs h).symm

/-- Witness for C1: a chatbot over an empty store short-circuits on the
query "q". -/
theorem answer_short_circuits_on_zero_results_witness :
    botEmpty.answer "q" true =
      { answer := "I couldn\x27t find any relevant information in the documents."
        sources := []
        metadata := [("retrieved_chunks", PyVal.nat 0)] } :=
  (answer_short_circuits_on_zero_results botEmpty "q" true rfl).1

/-- C2: when retrieval succeeds but the generation call raises, `answer` does
not propagate: the answer field is the (nonempty) error string, and sources
and metadata are the same as they would be with any succeeding client. -/
theorem answer_degrades_generation_error (bot : RAGChatbot) (query : String)
    (rs : Bool) (e : String)
    (hne : bot.retriever.search query (some bot.top_k) ≠ [])
    (herr : bot.client (bot.request_for query) = .error e) :
    (bot.answer query rs).answer = "Error generating answer: " ++ e ∧
    (bot.answer query rs).answer ≠ "" ∧
    ∀ s : String,
      (bot.answer query rs).sources =
        (({ bot with client := fun _ => .ok s } : RAGChatbot).answer query rs).sources ∧
      (bot.answer query rs).metadata =
        (({ bot with client := fun _ => .ok s } : RAGChatbot).answer query rs).metadata := by
  have hE : (bot.retriever.search query (some bot.top_k)).isEmpty = false := by
    simpa [List.isEmpty_iff] using hne
  have hans : (bot.answer query rs).answer = "Error generating answer: " ++ e := by
    simp [RAGChatbot.answer, hE, herr]
  refine ⟨hans, ?_, fun s => ⟨?_, ?_⟩⟩
  · rw [hans]
    intro hcontra
    have hl := congrArg String.length hcontra
    rw [String.length_append] at hl
    have hpre : ("Error generating answer: ").length = 25 := rfl
    have hnil : ("" : String).length = 0 := rfl
    omega
  · simp [RAGChatbot.answer, hE]
  · simp [RAGChatbot.answer, hE]

/-- Witness for C2: a one-chunk store with an always-raising client yields
the error string as the answer. -/
theorem answer_degrades_generation_error_witness :
    (botErr.answer "q" true).answer = "Error generating answer: " ++ "boom" :=
  (answer_degrades_generation_error botErr "q" true "boom" (by decide) rfl).1

/-- C3 counterexample: on a store with zero matching chunks, the metadata of
the returned object has no `model` key and no `query` key, so the claim that
the metadata always contains `retrieved_chunks`, `model` and `query` fails. -/
theorem answer_metadata_missing_keys_cex :
    assocGet? (botEmpty.answer "q" true).metadata "model" = none ∧
    assocGet? (botEmpty.answer "q" true).metadata "query" = none := by
  decide

/-- C3 (amended): the returned object always has a string answer, a list of
search results as sources, and a metadata map; the metadata keys are
`retrieved_chunks`, `model`, `query` when retrieval returned at least one
result, and only `retrieved_chunks` when it returned none. -/
theorem answer_metadata_keys (bot : RAGChatbot) (query : String) (rs : Bool) :
    (bot.answer query rs).metadata.map Prod.fst =
      (if (bot.retriever.search query (some bot.top_k)).isEmpty then
        ["retrieved_chunks"]
      else ["retrieved_chunks", "model", "query"]) := by
  by_cases h : (bot.retriever.search query (some bot.top_k)).isEmpty
  · simp [RAGChatbot.answer, h]
  · simp [RAGChatbot.answer, h]

/-- C4: `search(query, k)` returns at most `k` results, ordered by
non-decreasing score (ascending distance, best first), each carrying the
stored chunk's raw content, full metadata map, its numeric score, and a
source field extracted from the metadata; with no `k` supplied the
configured `top_k` is used. -/
theorem search_topk_sorted (r : Retriever) (query : String) (k : Nat)
    (hq : query ≠ "") (hk : 1 ≤ k) :
    (r.search query (some k)).length ≤ k ∧
    List.Pairwise (fun a b : SearchResult => a.score ≤ b.score) (r.search query (some k)) ∧
    (∀ sr ∈ r.search query (some k), ∃ d ∈ r.vectorstore.docs,
        sr.content = d.page_content ∧ sr.metadata = d.metadata ∧
        sr.score = r.vectorstore.score query d ∧
        sr.source = dictGetD d.metadata "source" "Unknown") ∧
    r.search query none = r.search query (some r.top_k) := by
  refine ⟨?_, ?_, ?_, rfl⟩
  · show (List.map _ ((List.insertionSort scoreLE
      (r.vectorstore.docs.map (fun d => (d, r.vectorstore.score query d)))).take k)).length ≤ k
    rw [List.length_map]
    exact List.length_take_le k _
  · show List.Pairwise _ (List.map _ ((List.insertionSort scoreLE
      (r.vectorstore.docs.map (fun d => (d, r.vectorstore.score query d)))).take k))
    rw [List.pairwise_map]
    have hs := List.sorted_insertionSort scoreLE
      (r.vectorstore.docs.map (fun d => (d, r.vectorstore.score query d)))
    have ht := List.Pairwise.sublist (List.take_sublist k _) hs
    exact ht.imp (fun h => h)
  · intro sr hsr
    rcases List.mem_map.mp hsr with ⟨p, hp, rfl⟩
    have hp2 : p ∈ List.insertionSort scoreLE
        (r.vectorstore.docs.map (fun d => (d, r.vectorstore.score query d))) :=
      List.mem_of_mem_take hp
    have hp3 : p ∈ r.vectorstore.docs.map (fun d => (d, r.vectorstore.score query d)) :=
      ((List.perm_insertionSort scoreLE _).mem_iff).mp hp2
    rcases List.mem_map.mp hp3 with ⟨d, hd, rfl⟩
    exact ⟨d, hd, rfl, rfl, rfl, rfl⟩

/-- Witness for C4: the one-chunk retriever with the query "x" and k = 1. -/
theorem search_topk_sorted_witness :
    (rOne.search "x" (some 1)).length ≤ 1 :=
  (search_topk_sorted rOne "x" 1 (by decide) (by decide)).1

/-- C5: when the vector store directory does not exist, constructing a
`Retriever` fails with the store-not-found error, so no retriever value —
and hence no `search` call — can arise from it. -/
theorem retriever_init_fails_when_store_missing (fs : FS) (dir : String) (k : Nat)
    (h : fs.storeDirs dir = none) :
    Retriever.init fs dir k =
      .error ("Vector store not found at " ++ dir ++ ". Please run ingest.py first.") ∧
    ∀ r : Retriever, Retriever.init fs dir k ≠ .ok r := by
  unfold Retriever.init
  rw [h]
  exact ⟨rfl, fun r hr => Except.noConfusion hr⟩

/-- Witness for C5: a filesystem with no directories at all. -/
theorem retriever_init_fails_when_store_missing_witness :
    Retriever.init fsNone "vectorstore" 4 =
      .error ("Vector store not found at " ++ "vectorstore" ++ ". Please run ingest.py first.") :=
  (retriever_init_fails_when_store_missing fsNone "vectorstore" 4 rfl).1

/-- C6: `return_sources=false` leaves the answer and metadata fields exactly
as with `return_sources=true` and only replaces the sources field with the
empty list. -/
theorem return_sources_only_affects_sources (bot : RAGChatbot) (query : String) :
    (bot.answer query false).answer = (bot.answer query true).answer ∧
    (bot.answer query false).metadata = (bot.answer query true).metadata ∧
    (bot.answer query false).sources = [] := by
  by_cases h : (bot.retriever.search query (some bot.top_k)).isEmpty <;>
    simp [RAGChatbot.answer, h]

/-- C7: a store saved by the ingestor loads into a retriever whose
`get_stats` counters `total_chunks`, `chunk_size` and `chunk_overlap` are
exactly the values of the sidecar record written at ingestion under the keys
`num_chunks`, `chunk_size` and `chunk_overlap`. -/
theorem get_stats_reads_sidecar (ing : DocumentIngestor) (vs : Vectorstore)
    (fs : FS) (k : Nat) :
    ∃ r : Retriever,
      Retriever.init (ing.save_vectorstore vs fs) ing.vectorstore_dir k = .ok r ∧
      (ing.save_vectorstore vs fs).storeDirs ing.vectorstore_dir =
        some { store := vs
               metadataPkl := some [("num_chunks", vs.ntotal),
                                    ("chunk_size", ing.chunk_size),
                                    ("chunk_overlap", ing.chunk_overlap)] } ∧
      r.get_stats =
        [("total_chunks", PyVal.nat vs.ntotal),
         ("chunk_size", PyVal.nat ing.chunk_size),
         ("chunk_overlap", PyVal.nat ing.chunk_overlap),
         ("embedding_model", PyVal.str "sentence-transformers/all-MiniLM-L6-v2")] := by
  refine ⟨{ vectorstore := vs
            metadata := [("num_chunks", vs.ntotal),
                         ("chunk_size", ing.chunk_size),
                         ("chunk_overlap", ing.chunk_overlap)]
            top_k := k }, ?_, ?_, rfl⟩
  · simp [Retriever.init, DocumentIngestor.save_vectorstore]
  · simp [DocumentIngestor.save_vectorstore]

/-- C8: when the data directory exists but holds zero documents, `ingest`
returns the "no documents" outcome and leaves the filesystem — in particular
the vector store directory — unchanged. -/
theorem ingest_zero_documents (ing : DocumentIngestor) (fs : FS)
    (h : fs.dataDirs ing.data_dir = some []) :
    ing.ingest fs = (fs, IngestOutcome.noDocuments) ∧
    ((ing.ingest fs).1).storeDirs ing.vectorstore_dir = fs.storeDirs ing.vectorstore_dir := by
  have key : ing.ingest fs = (fs, IngestOutcome.noDocuments) := by
    unfold DocumentIngestor.ingest DocumentIngestor.load_documents
    rw [h]
    rfl
  exact ⟨key, by rw [key]⟩

/-- Witness for C8: an ingestor over a filesystem whose data directory
exists and is empty. -/
theorem ingest_zero_documents_witness :
    ingA.ingest fsEmptyData = (fsEmptyData, IngestOutcome.noDocuments) :=
  (ingest_zero_documents ingA fsEmptyData rfl).1

/-- C9: with `chunk_size > 0` and `chunk_overlap < chunk_size`, every chunk
the splitter produces from a document has length at most `chunk_size`, and
each pair of consecutive chunks of the document shares a suffix/prefix of
length exactly `chunk_overlap`. -/
theorem chunks_bounded_and_overlapping (ing : DocumentIngestor) (t : List Char)
    (h1 : 0 < ing.chunk_size) (h2 : ing.chunk_overlap < ing.chunk_size) :
    (∀ c ∈ chunkText ing.chunk_size ing.chunk_overlap t, c.length ≤ ing.chunk_size) ∧
    List.Chain'
      (fun a b => a.drop (a.length - ing.chunk_overlap) = b.take ing.chunk_overlap ∧
        ing.chunk_overlap ≤ b.length)
      (chunkText ing.chunk_size ing.chunk_overlap t) :=
  ⟨chunkText_length_le _ _ h2 t.length t le_rfl,
   chunkText_chain _ _ h2 t.length t le_rfl⟩

/-- Witness for C9: chunk size 5, overlap 2, on an 8-character text. -/
theorem chunks_bounded_and_overlapping_witness :
    0 < ingA.chunk_size ∧ ingA.chunk_overlap < ingA.chunk_size ∧
    List.Chain'
      (fun a b => a.drop (a.length - ingA.chunk_overlap) = b.take ingA.chunk_overlap ∧
        ingA.chunk_overlap ≤ b.length)
      (chunkText ingA.chunk_size ingA.chunk_overlap ("abcdefgh").toList) :=
  ⟨by decide, by decide,
    (chunks_bounded_and_overlapping ingA ("abcdefgh").toList (by decide) (by decide)).2⟩

/-- C10: a search result whose metadata map has no `source` key carries the
literal source field `"Unknown"`. -/
theorem search_source_defaults_to_unknown (r : Retriever) (query : String)
    (k : Option Nat) (sr : SearchResult) (hmem : sr ∈ r.search query k)
    (hnone : assocGet? sr.metadata "source" = none) :
    sr.source = "Unknown" := by
  rcases List.mem_map.mp hmem with ⟨p, hp, rfl⟩
  show dictGetD p.1.metadata "source" "Unknown" = "Unknown"
  have hfind : p.1.metadata.find? (fun q => q.1 == "source") = none := by
    have := hnone
    simp only [assocGet?, Option.map_eq_none'] at this
    exact this
  unfold dictGetD
  rw [hfind]

/-- The single result the no-source retriever returns. -/
def srNoSrc : SearchResult := { content := "hi", metadata := [], score := 0, source := "Unknown" }

/-- Witness for C10: the one-chunk store whose chunk has no metadata. -/
theorem search_source_defaults_to_unknown_witness : srNoSrc.source = "Unknown" :=
  search_source_defaults_to_unknown rNoSrc "q" none srNoSrc (by decide) rfl

end RAG
